import Mathlib

/-!
Shallow embedding of the pdf_summary_problem_service front-end
(`src/types.ts`, `src/components/QuizSection.tsx`,
`src/components/UploadSection.tsx`, `src/App.tsx`).

Component-local state (`useState`) is modelled as explicit records, event
handlers as functions on those records, and a user interaction as a step
function that applies a handler only when the corresponding DOM element is
enabled, mirroring the `disabled={...}` attributes in the JSX.
-/

/-- `QuizTab` from `types.ts`: the two difficulty buckets. -/
inductive QuizTab
  | basic
  | advanced
deriving DecidableEq, Repr

/-- `QuizQuestion` from `types.ts`. `answer_index` is a TS `number` coming
from server JSON, so it is modelled as an unconstrained `Int`. -/
structure QuizQuestion where
  question : String
  choices : List String
  answer_index : Int
  explanation : String
deriving DecidableEq, Repr

/-- `Problems` from `types.ts`. -/
structure Problems where
  basic : List QuizQuestion
  advanced : List QuizQuestion
deriving DecidableEq, Repr

/-- The TSX expression `problems[activeTab]` (QuizSection.tsx line 120). -/
def Problems.get (p : Problems) : QuizTab → List QuizQuestion
  | .basic => p.basic
  | .advanced => p.advanced

/-- Local state of one mounted `QuizItem` (QuizSection.tsx lines 17-18):
`useState<number | null>(null)` for the selected choice and
`useState(false)` for whether the explanation is shown. -/
structure QuizItemState where
  selectedChoice : Option Nat
  showExplanation : Bool
deriving DecidableEq, Repr

/-- The `useState` initial values of a freshly mounted `QuizItem`. -/
def QuizItemState.initial : QuizItemState :=
  { selectedChoice := none, showExplanation := false }

/-- `handleChoiceSelect` (QuizSection.tsx lines 20-23): stores the clicked
choice index and reveals the explanation. -/
def handleChoiceSelect (choiceIndex : Nat) (_s : QuizItemState) : QuizItemState :=
  { selectedChoice := some choiceIndex, showExplanation := true }

/-- A user click on the choice button for `choiceIndex`. The button carries
`disabled={showExplanation}` (QuizSection.tsx line 47), so the handler runs
only while the explanation is not yet shown. -/
def clickChoice (choiceIndex : Nat) (s : QuizItemState) : QuizItemState :=
  if s.showExplanation then s else handleChoiceSelect choiceIndex s

/-- A sequence of user clicks on choice buttons within one mount. -/
def runClicks : List Nat → QuizItemState → QuizItemState
  | [], s => s
  | c :: cs, s => runClicks cs (clickChoice c s)

/-- `isCorrect` (QuizSection.tsx line 25): `selectedChoice === question.answer_index`,
where TS `null === n` is `false` for every number `n`. -/
def isCorrect (q : QuizQuestion) (s : QuizItemState) : Bool :=
  match s.selectedChoice with
  | some i => (i : Int) == q.answer_index
  | none => false

/-- `isSelected` for a choice row (QuizSection.tsx line 39):
`selectedChoice === choiceIndex`. -/
def isSelected (s : QuizItemState) (choiceIndex : Nat) : Bool :=
  s.selectedChoice == some choiceIndex

/-- `showResult` for a choice row (QuizSection.tsx line 41): the correctness
indicator on a row is rendered iff the explanation is shown and that row is
the selected one. -/
def showResult (s : QuizItemState) (choiceIndex : Nat) : Bool :=
  s.showExplanation && isSelected s choiceIndex

/-- A node rendered in the scrollable body of `QuizSection`
(QuizSection.tsx lines 153-163): either the empty-state placeholder text or
one `QuizItem` block per question. -/
inductive RenderedBlock
  | placeholder
  | questionBlock (index : Nat) (q : QuizQuestion)
deriving DecidableEq, Repr

/-- Whether a rendered node is a `QuizItem` question block. -/
def RenderedBlock.isQuestionBlock : RenderedBlock → Bool
  | .placeholder => false
  | .questionBlock _ _ => true

/-- The body of `QuizSection` (QuizSection.tsx lines 119-163):
`currentProblems = problems[activeTab] || []`; an empty list renders the
placeholder, otherwise `currentProblems.map((question, index) => <QuizItem ...>)`. -/
def renderQuizSection (problems : Problems) (activeTab : QuizTab) : List RenderedBlock :=
  let currentProblems := problems.get activeTab
  if currentProblems.length = 0 then
    [RenderedBlock.placeholder]
  else
    currentProblems.enum.map (fun p => RenderedBlock.questionBlock p.1 p.2)

/-- React keyed reconciliation applied to `<QuizSection key={activeTab} ...>`
(App.tsx line 92): when the `key` of a child changes, React unmounts the old
subtree and mounts a fresh one, so every `QuizItem` restarts from its
`useState` initial values; when the key is unchanged the mounted per-question
states are kept. -/
def reconcileQuizSection (oldTab newTab : QuizTab) (oldStates : List QuizItemState)
    (newQuestions : List QuizQuestion) : List QuizItemState :=
  if newTab = oldTab then oldStates
  else newQuestions.map (fun _ => QuizItemState.initial)

/-- A file as seen by the DOM handlers: its name and MIME type. -/
structure DomFile where
  name : String
  type : String
deriving DecidableEq, Repr

/-- Local state of `UploadSection` (UploadSection.tsx lines 11-12):
`dragActive` and `selectedFile`. -/
structure UploadState where
  dragActive : Bool
  selectedFile : Option DomFile
deriving DecidableEq, Repr

/-- The `useState` initial values of `UploadSection`. -/
def UploadState.initial : UploadState :=
  { dragActive := false, selectedFile := none }

/-- The three drag event types handled by `handleDrag`. -/
inductive DragEventType
  | dragenter
  | dragover
  | dragleave
deriving DecidableEq, Repr

/-- `handleDrag` (UploadSection.tsx lines 15-23). -/
def handleDrag (t : DragEventType) (s : UploadState) : UploadState :=
  match t with
  | .dragenter => { s with dragActive := true }
  | .dragover => { s with dragActive := true }
  | .dragleave => { s with dragActive := false }

/-- `handleDrop` (UploadSection.tsx lines 25-36): always clears `dragActive`;
stores the first dropped file only when its MIME type is `application/pdf`. -/
def handleDrop (files : List DomFile) (s : UploadState) : UploadState :=
  let s1 := { s with dragActive := false }
  match files with
  | [] => s1
  | file :: _ =>
    if file.type = "application/pdf" then { s1 with selectedFile := some file } else s1

/-- `handleFileChange` (UploadSection.tsx lines 38-42): stores the first file
of the input's file list, with no MIME-type check in the handler (the
`accept="application/pdf"` attribute only filters the dialog). -/
def handleFileChange (files : List DomFile) (s : UploadState) : UploadState :=
  match files with
  | [] => s
  | file :: _ => { s with selectedFile := some file }

/-- `handleSubmit` (UploadSection.tsx lines 44-49): calls
`onUpload(selectedFile)` only when a file is selected and `isProcessing` is
false. The result is the file passed to `onUpload`, if any. -/
def handleSubmit (isProcessing : Bool) (s : UploadState) : Option DomFile :=
  match s.selectedFile with
  | some file => if isProcessing then none else some file
  | none => none

/-- A user interaction with `UploadSection`. `fileDialog` is a change event
on the hidden file input, `submit` a submission of the form (pressing the
submit button or the button opening the dialog). -/
inductive UploadEvent
  | drag (t : DragEventType)
  | drop (files : List DomFile)
  | fileDialog (files : List DomFile)
  | submit
deriving DecidableEq, Repr

/-- One user interaction with `UploadSection` under a given `isProcessing`
prop. The file input (line 71), the dialog-open button (line 89) and the
submit button (line 99) carry `disabled={isProcessing}`, so their events do
nothing while processing; the drag/drop handlers on the drop zone
(lines 60-63) have no such guard. Returns the new local state and the file
passed to `onUpload`, if any. -/
def uploadStep (isProcessing : Bool) (e : UploadEvent) (s : UploadState) :
    UploadState × Option DomFile :=
  match e with
  | .drag t => (handleDrag t s, none)
  | .drop files => (handleDrop files s, none)
  | .fileDialog files =>
    if isProcessing then (s, none) else (handleFileChange files s, none)
  | .submit => (s, handleSubmit isProcessing s)

/-- The runtime JSON value `result` parsed in `App.tsx` line 27: the
`ProcessedData` interface of `types.ts` together with the `error` field the
server sends alongside `ok: false`. -/
structure ProcessedData where
  ok : Bool
  problems : Problems
  summary_html : String
  summary_url : Option String := none
  problems_url : Option String := none
  error : Option String := none
deriving DecidableEq, Repr

/-- Top-level state of `App` (App.tsx lines 9-12). -/
structure AppState where
  isProcessing : Bool
  status : String
  data : Option ProcessedData
  activeTab : QuizTab
deriving DecidableEq, Repr

/-- How the awaited part of `handleFileUpload` resolves: the `fetch` call
rejects (network failure), `response.json()` rejects (non-JSON body), or a
JSON value is parsed. Rejections carry the `Error` message observed by the
`catch` clause. -/
inductive FetchOutcome
  | fetchRejects (message : String)
  | jsonRejects (message : String)
  | parsed (result : ProcessedData)
deriving DecidableEq, Repr

/-- Whether the outcome takes the `catch` path of `handleFileUpload`. -/
def FetchOutcome.fails : FetchOutcome → Bool
  | .fetchRejects _ => true
  | .jsonRejects _ => true
  | .parsed result => !result.ok

/-- `handleFileUpload` (App.tsx lines 14-42), run to completion on a given
fetch outcome. It first sets `isProcessing` and the processing status; on a
parsed `ok` result it stores the data and sets the success status; on
`ok: false` it throws `new Error(result.error || '처리 실패')`, which the
`catch` clause turns into a status `` `오류: ${error.message}` ``; rejections
of `fetch`/`json()` take the same `catch` path; the `finally` clause clears
`isProcessing`. The `setTimeout` that later clears the success status is a
separate future event and not part of this function's completion. -/
def handleFileUpload (s : AppState) (outcome : FetchOutcome) : AppState :=
  let s1 := { s with isProcessing := true, status := "PDF 분석 및 문제 생성 중..." }
  let s2 :=
    match outcome with
    | .fetchRejects msg => { s1 with status := "오류: " ++ msg }
    | .jsonRejects msg => { s1 with status := "오류: " ++ msg }
    | .parsed result =>
      if result.ok then
        { s1 with data := some result, status := "완료! 생성된 문제와 요약을 확인하세요." }
      else
        let msg :=
          match result.error with
          | some e => if e = "" then "처리 실패" else e
          | none => "처리 실패"
        { s1 with status := "오류: " ++ msg }
  { s2 with isProcessing := false }

/-- `{data && ...}` (App.tsx line 89): the quiz and summary views are
rendered exactly when a response is stored. -/
def appShowsResults (s : AppState) : Bool :=
  s.data.isSome

/-- The example question of spec §8. -/
def exampleQuestion : QuizQuestion :=
  { question := "2+2?", choices := ["3", "4"], answer_index := 1, explanation := "basic math" }

/- ### Helper lemmas -/

/-- Once the explanation is shown, every further click is a no-op: the
choice buttons are disabled. -/
theorem runClicks_of_showExplanation (clicks : List Nat) (s : QuizItemState)
    (h : s.showExplanation = true) : runClicks clicks s = s := by
  induction clicks with
  | nil => rfl
  | cons c cs ih => simp [runClicks, clickChoice, h, ih]

/- ### Claims -/

/-- C1: within one mount of a `QuizItem`, after any sequence of user clicks
at most one choice index is stored as the selected choice, and the
correctness indicator equals `selectedIndex === answer_index`. -/
theorem quizitem_single_selection_and_correctness (q : QuizQuestion) (clicks : List Nat) :
    (∀ i j, isSelected (runClicks clicks QuizItemState.initial) i = true →
      isSelected (runClicks clicks QuizItemState.initial) j = true → i = j) ∧
    (∀ i, (runClicks clicks QuizItemState.initial).selectedChoice = some i →
      (isCorrect q (runClicks clicks QuizItemState.initial) = true ↔ (i : Int) = q.answer_index)) := by
  constructor
  · intro i j hi hj
    simp only [isSelected, beq_iff_eq] at hi hj
    rw [hi] at hj
    exact Option.some.inj hj
  · intro i hi
    simp [isCorrect, hi]

/-- Witness for C1 on the spec §8 example: clicking choice 1 of the example
question yields a correct indicator. -/
theorem quizitem_single_selection_and_correctness_witness :
    isCorrect exampleQuestion (runClicks [1] QuizItemState.initial) = true := by
  have h := quizitem_single_selection_and_correctness exampleQuestion [1]
  exact (h.2 1 (by decide)).mpr (by decide)

/-- C2 counterexample: a `text/plain` file delivered through the file
dialog's change event does update the selected-file state, so silent
rejection of non-PDF MIME types does not hold for the file-dialog path. -/
theorem upload_nonpdf_dialog_counterexample :
    (handleFileChange [{ name := "notes.txt", type := "text/plain" }]
      UploadState.initial).selectedFile ≠ UploadState.initial.selectedFile := by
  decide

/-- C2 amended: a non-PDF file dropped onto the zone leaves the
selected-file state unchanged — the drop only clears the transient drag
highlight — while the file-dialog change handler stores the first delivered
file regardless of its MIME type. -/
theorem upload_nonpdf_drop_ignored (f : DomFile) (rest : List DomFile) (s : UploadState)
    (h : ¬ f.type = "application/pdf") :
    (handleDrop (f :: rest) s).selectedFile = s.selectedFile ∧
    handleDrop (f :: rest) s = { s with dragActive := false } ∧
    (∀ g gs, (handleFileChange (g :: gs) s).selectedFile = some g) := by
  refine ⟨?_, ?_, ?_⟩
  · simp [handleDrop, h]
  · simp [handleDrop, h]
  · intro g gs
    simp [handleFileChange]

/-- Witness for the amended C2 at a concrete non-PDF file. -/
theorem upload_nonpdf_drop_ignored_witness :
    (handleDrop [{ name := "notes.txt", type := "text/plain" }]
      UploadState.initial).selectedFile = UploadState.initial.selectedFile :=
  (upload_nonpdf_drop_ignored { name := "notes.txt", type := "text/plain" } []
    UploadState.initial (by decide)).1

/-- C3: when the parsed response has `ok: false` together with an error
message string, the resulting status is prefixed with the error marker
`오류: ` and contains the server-supplied message. -/
theorem upload_error_status_contains_message (s : AppState) (r : ProcessedData)
    (msg : String) (hok : r.ok = false) (herr : r.error = some msg) :
    (∃ rest, (handleFileUpload s (.parsed r)).status = "오류: " ++ rest) ∧
    (∃ p q, (handleFileUpload s (.parsed r)).status = p ++ msg ++ q) := by
  by_cases hmsg : msg = ""
  · subst hmsg
    refine ⟨⟨"처리 실패", ?_⟩, ⟨"오류: " ++ "처리 실패", "", ?_⟩⟩ <;>
      simp [handleFileUpload, hok, herr]
  · refine ⟨⟨msg, ?_⟩, ⟨"오류: ", "", ?_⟩⟩ <;>
      simp [handleFileUpload, hok, herr, hmsg]

/-- Witness for C3 on a concrete failing response. -/
theorem upload_error_status_contains_message_witness :
    (∃ rest,
      (handleFileUpload
        { isProcessing := false, status := "", data := none, activeTab := .basic }
        (.parsed { ok := false, problems := { basic := [], advanced := [] },
                   summary_html := "", error := some "no api key" })).status =
        "오류: " ++ rest) ∧
    (∃ p q,
      (handleFileUpload
        { isProcessing := false, status := "", data := none, activeTab := .basic }
        (.parsed { ok := false, problems := { basic := [], advanced := [] },
                   summary_html := "", error := some "no api key" })).status =
        p ++ "no api key" ++ q) :=
  upload_error_status_contains_message
    { isProcessing := false, status := "", data := none, activeTab := .basic }
    { ok := false, problems := { basic := [], advanced := [] },
      summary_html := "", error := some "no api key" }
    "no api key" (by decide) (by decide)

/-- C4: while `isProcessing` is true, submitting the upload form neither
issues an upload call nor changes any state: no second in-flight request
and no queuing. -/
theorem upload_submit_blocked_while_processing (s : UploadState) :
    uploadStep true UploadEvent.submit s = (s, none) := by
  cases h : s.selectedFile <;> simp [uploadStep, handleSubmit, h]

/-- C5 counterexample: with `isProcessing` true, dropping a PDF file onto
the upload zone still changes the selected-file state, so interaction with
the upload component is not fully disabled during an upload. -/
theorem upload_processing_drop_counterexample :
    (uploadStep true (UploadEvent.drop [{ name := "doc.pdf", type := "application/pdf" }])
      UploadState.initial).1.selectedFile ≠ UploadState.initial.selectedFile := by
  decide

/-- C5 amended: while an upload is in progress, the file input, the
dialog-open button and the submit button are disabled — their events leave
the component state unchanged and issue no upload — but the drag and drop
handlers on the drop zone remain active and are applied unchanged, so a
drop can still change the selected file. -/
theorem upload_processing_disables_buttons_not_drop (s : UploadState)
    (files : List DomFile) (t : DragEventType) :
    uploadStep true (UploadEvent.fileDialog files) s = (s, none) ∧
    uploadStep true UploadEvent.submit s = (s, none) ∧
    uploadStep true (UploadEvent.drop files) s = (handleDrop files s, none) ∧
    uploadStep true (UploadEvent.drag t) s = (handleDrag t s, none) := by
  refine ⟨by simp [uploadStep], ?_, rfl, rfl⟩
  cases h : s.selectedFile <;> simp [uploadStep, handleSubmit, h]

/-- C6: the per-question state machine is one-way. A fresh mount is
unanswered; the first click on choice `i` stores `i`, reveals the
explanation and the correctness indicator on row `i` simultaneously; and no
later sequence of clicks changes the state within the same mount. -/
theorem quizitem_one_way_transition (i : Nat) (clicks : List Nat) :
    QuizItemState.initial.selectedChoice = none ∧
    QuizItemState.initial.showExplanation = false ∧
    (clickChoice i QuizItemState.initial).selectedChoice = some i ∧
    (clickChoice i QuizItemState.initial).showExplanation = true ∧
    showResult (clickChoice i QuizItemState.initial) i = true ∧
    runClicks clicks (clickChoice i QuizItemState.initial) =
      clickChoice i QuizItemState.initial := by
  refine ⟨rfl, rfl, rfl, rfl, ?_, ?_⟩
  · simp [showResult, isSelected, clickChoice, handleChoiceSelect, QuizItemState.initial]
  · exact runClicks_of_showExplanation clicks _ rfl

/-- C7: a tab switch between `basic` and `advanced` changes the `key` of
`QuizSection`, so the whole question list is remounted: the new mount has
one per-question state per question of the newly shown set, and each is the
unanswered initial state. -/
theorem tab_switch_resets_quiz_state (oldTab newTab : QuizTab)
    (oldStates : List QuizItemState) (qs : List QuizQuestion)
    (h : oldTab ≠ newTab) :
    (reconcileQuizSection oldTab newTab oldStates qs).length = qs.length ∧
    ∀ st ∈ reconcileQuizSection oldTab newTab oldStates qs,
      st.selectedChoice = none ∧ st.showExplanation = false := by
  have hne : ¬ newTab = oldTab := fun hc => h hc.symm
  constructor
  · simp [reconcileQuizSection, hne]
  · intro st hst
    simp only [reconcileQuizSection, if_neg hne, List.mem_map] at hst
    obtain ⟨_, _, rfl⟩ := hst
    exact ⟨rfl, rfl⟩

/-- Witness for C7: switching from basic to advanced over one previously
answered question leaves the one new question unanswered. -/
theorem tab_switch_resets_quiz_state_witness :
    (reconcileQuizSection .basic .advanced
      [{ selectedChoice := some 0, showExplanation := true }] [exampleQuestion]).length = 1 ∧
    ∀ st ∈ reconcileQuizSection .basic .advanced
      [{ selectedChoice := some 0, showExplanation := true }] [exampleQuestion],
      st.selectedChoice = none ∧ st.showExplanation = false :=
  tab_switch_resets_quiz_state .basic .advanced
    [{ selectedChoice := some 0, showExplanation := true }] [exampleQuestion] (by decide)

/-- C8: for every stored response with `ok: true` and every active tab, the
quiz view renders exactly `problems[activeTab].length` question blocks; an
empty list renders the placeholder and zero question blocks. -/
theorem quiz_renders_one_block_per_question (d : ProcessedData) (hok : d.ok = true)
    (tab : QuizTab) :
    ((renderQuizSection d.problems tab).filter RenderedBlock.isQuestionBlock).length =
      (d.problems.get tab).length := by
  by_cases hlen : (d.problems.get tab).length = 0
  · simp [renderQuizSection, hlen, RenderedBlock.isQuestionBlock]
  · simp only [renderQuizSection, if_neg hlen]
    rw [List.filter_map]
    simp [Function.comp_def, RenderedBlock.isQuestionBlock, List.filter_true,
      List.enum_length]

/-- Witness for C8 on the spec §8 example response: one basic question
block, zero advanced question blocks. -/
theorem quiz_renders_one_block_per_question_witness :
    ((renderQuizSection { basic := [exampleQuestion], advanced := [] } QuizTab.basic).filter
        RenderedBlock.isQuestionBlock).length =
      (Problems.get { basic := [exampleQuestion], advanced := [] } QuizTab.basic).length ∧
    ((renderQuizSection { basic := [exampleQuestion], advanced := [] } QuizTab.advanced).filter
        RenderedBlock.isQuestionBlock).length =
      (Problems.get { basic := [exampleQuestion], advanced := [] } QuizTab.advanced).length :=
  ⟨quiz_renders_one_block_per_question
      { ok := true, problems := { basic := [exampleQuestion], advanced := [] },
        summary_html := "<p>Hi</p>" } (by decide) QuizTab.basic,
    quiz_renders_one_block_per_question
      { ok := true, problems := { basic := [exampleQuestion], advanced := [] },
        summary_html := "<p>Hi</p>" } (by decide) QuizTab.advanced⟩

/-- C9: every failing outcome of `handleFileUpload` — network error,
non-JSON body, or a parsed response with `ok: false` — leaves the stored
`ProcessedData` unchanged, so a previously rendered quiz and summary remain
displayed. -/
theorem upload_failure_preserves_data (s : AppState) (outcome : FetchOutcome)
    (h : outcome.fails = true) :
    (handleFileUpload s outcome).data = s.data ∧
    appShowsResults (handleFileUpload s outcome) = appShowsResults s := by
  cases outcome with
  | fetchRejects msg => exact ⟨rfl, rfl⟩
  | jsonRejects msg => exact ⟨rfl, rfl⟩
  | parsed result =>
    simp only [FetchOutcome.fails, Bool.not_eq_true'] at h
    constructor <;> simp [handleFileUpload, h, appShowsResults]

/-- Witness for C9: a failing `ok: false` response leaves previously stored
data in place. -/
theorem upload_failure_preserves_data_witness :
    (handleFileUpload
      { isProcessing := false, status := "",
        data := some { ok := true, problems := { basic := [exampleQuestion], advanced := [] },
                       summary_html := "<p>Hi</p>" },
        activeTab := .basic }
      (.parsed { ok := false, problems := { basic := [], advanced := [] },
                 summary_html := "", error := some "boom" })).data =
      some { ok := true, problems := { basic := [exampleQuestion], advanced := [] },
             summary_html := "<p>Hi</p>" } :=
  (upload_failure_preserves_data
    { isProcessing := false, status := "",
      data := some { ok := true, problems := { basic := [exampleQuestion], advanced := [] },
                     summary_html := "<p>Hi</p>" },
      activeTab := .basic }
    (.parsed { ok := false, problems := { basic := [], advanced := [] },
               summary_html := "", error := some "boom" }) (by decide)).1

/-- C10: every completed invocation of `handleFileUpload` ends with
`isProcessing` false, on the success path and on every failure path, because
the reset sits in the `finally` clause. -/
theorem upload_always_clears_processing (s : AppState) (outcome : FetchOutcome) :
    (handleFileUpload s outcome).isProcessing = false := by
  cases outcome with
  | fetchRejects msg => rfl
  | jsonRejects msg => rfl
  | parsed result => by_cases h : result.ok <;> simp [handleFileUpload, h]
